import Mathlib

/-!
Verification of the Dynamic Mockups MCP server (src/index.js and
src/response-formatter.js) against its specification.

The JavaScript sources are shallowly embedded: JSON values (as produced by
`JSON.parse` on upstream bodies, plus JavaScript's `undefined`) become the
`Json` inductive; JavaScript truthiness, property access, object spread and
`JSON.stringify(v, null, 2)` are modelled explicitly; the upstream HTTP
layer (axios with `validateStatus: status < 500`) is modelled by an oracle
`Oracle` mapping each attempted request to either a reply or a network
failure, and every handler returns the list of upstream requests it
attempted alongside its `ToolResult`.
-/

-- ============================================================================
-- JavaScript value model
-- ============================================================================

/-- Model of a JavaScript value as handled by this server: JSON values plus
`undefined`. Object fields are kept in insertion order, as JavaScript does. -/
inductive Json where
  | undef
  | null
  | bool (b : Bool)
  | num (n : Int)
  | str (s : String)
  | arr (elems : List Json)
  | obj (fields : List (String × Json))

/-- JavaScript truthiness of a value (`undefined`, `null`, `false`, `0` and
the empty string are falsy; objects and arrays are always truthy). -/
def jsTruthy : Json → Bool
  | .undef => false
  | .null => false
  | .bool b => b
  | .num n => n != 0
  | .str s => !s.data.isEmpty
  | .arr _ => true
  | .obj _ => true

/-- First binding of a key in an object's field list (JavaScript objects have
at most one binding per key, so first-match lookup is exact). -/
def assocGet : List (String × Json) → String → Json
  | [], _ => Json.undef
  | (k', v) :: rest, k => if k' = k then v else assocGet rest k

/-- JavaScript property access `v?.k`: field lookup on objects, `undefined`
otherwise (no property of that name exists on the primitives this server
reads fields from). -/
def jsGet : Json → String → Json
  | .obj fs, k => assocGet fs k
  | _, _ => Json.undef

/-- JavaScript `x || y` on values: `x` when truthy, else `y`. -/
def jsOrJ (x y : Json) : Json := if jsTruthy x then x else y

/-- JavaScript string emptiness (the only falsy string is the empty one). -/
def jsIsEmpty (s : String) : Bool := s.data.isEmpty

/-- JavaScript `String.prototype.startsWith`. -/
def jsStartsWith (s pre : String) : Bool := pre.data.isPrefixOf s.data

/-- JavaScript `String.prototype.slice(n)` for a nonnegative index. -/
def jsDrop (s : String) (n : Nat) : String := ⟨s.data.drop n⟩

/-- JavaScript `x || y` for possibly-absent strings (`none` models
`undefined`; `some ""` is falsy as well). -/
def jsFalsyStr : Option String → Bool
  | none => true
  | some s => jsIsEmpty s

/-- JavaScript `x || y` on possibly-absent strings. -/
def strOr (x y : Option String) : Option String := if jsFalsyStr x then y else x

/-- JavaScript property assignment `o[k] = v`: replaces the value in place if
the key exists, otherwise appends the new binding. -/
def setField : List (String × Json) → String → Json → List (String × Json)
  | [], k, v => [(k, v)]
  | (k', v') :: rest, k, v =>
    if k' = k then (k', v) :: rest else (k', v') :: setField rest k v

/-- JavaScript object spread `\x7b...base, ...extra\x7d` field semantics: the
fields of `extra` are assigned one by one onto `base` (a duplicate key keeps
its original position but takes the later value). -/
def objAssign : List (String × Json) → List (String × Json) → List (String × Json)
  | base, [] => base
  | base, (k, v) :: rest => objAssign (setField base k v) rest

/-- Own enumerable fields contributed by spreading a JavaScript value:
objects spread their fields, strings and arrays spread index-keyed entries,
primitives contribute nothing. -/
def jsSpreadFields : Json → List (String × Json)
  | .obj fs => fs
  | .str s => s.data.enum.map (fun p => (toString p.1, Json.str (String.singleton p.2)))
  | .arr xs => xs.enum.map (fun p => (toString p.1, p.2))
  | _ => []

-- ============================================================================
-- JavaScript string coercion and JSON.stringify(v, null, 2)
-- ============================================================================

mutual

/-- JavaScript `String(v)` coercion as used in template literals and
`URLSearchParams` values. -/
def jsToString : Json → String
  | .undef => "undefined"
  | .null => "null"
  | .bool b => cond b "true" "false"
  | .num n => toString n
  | .str s => s
  | .arr xs => String.intercalate "," (jsToStringElems xs)
  | .obj _ => "[object Object]"

/-- Elementwise coercion inside `Array.prototype.toString` (null and
undefined elements render as the empty string). -/
def jsToStringElems : List Json → List String
  | [] => []
  | x :: xs =>
    (match x with
     | .null => ""
     | .undef => ""
     | v => jsToString v) :: jsToStringElems xs

end

/-- Two-space indentation used by `JSON.stringify(v, null, 2)`. -/
def indentStr (n : Nat) : String := String.mk (List.replicate n ' ')

/-- Lower-case hexadecimal digit. -/
def hexDigit (n : Nat) : Char := if n < 10 then Char.ofNat (48 + n) else Char.ofNat (87 + n)

/-- JSON string escaping of a single character. -/
def jsonEscapeChar (c : Char) : String :=
  if c = '"' then "\\\""
  else if c = '\\' then "\\\\"
  else if c = '\n' then "\\n"
  else if c = '\r' then "\\r"
  else if c = '\t' then "\\t"
  else if c = '\x08' then "\\b"
  else if c = '\x0c' then "\\f"
  else if c.toNat < 32 then "\\u00" ++ String.mk [hexDigit (c.toNat / 16), hexDigit (c.toNat % 16)]
  else String.singleton c

/-- JSON string literal rendering. -/
def jsonQuote (s : String) : String := "\"" ++ String.join (s.data.map jsonEscapeChar) ++ "\""

mutual

/-- Rendering of `JSON.stringify(v, null, 2)` at a given indentation level.
Inside objects, `undefined`-valued members are skipped; inside arrays,
`undefined` elements render as `null` (this server never serializes a
top-level `undefined`, which is rendered here as the text "undefined"). -/
def stringifyAt : Nat → Json → String
  | _, .undef => "undefined"
  | _, .null => "null"
  | _, .bool b => cond b "true" "false"
  | _, .num n => toString n
  | _, .str s => jsonQuote s
  | ind, .arr xs =>
    let items := stringifyElems (ind + 2) xs
    if items.isEmpty then "[]"
    else "[\n" ++ String.intercalate ",\n" (items.map (fun s => indentStr (ind + 2) ++ s)) ++
      "\n" ++ indentStr ind ++ "]"
  | ind, .obj fs =>
    let items := stringifyMembers (ind + 2) fs
    if items.isEmpty then "\x7b\x7d"
    else "\x7b\n" ++ String.intercalate ",\n" (items.map (fun s => indentStr (ind + 2) ++ s)) ++
      "\n" ++ indentStr ind ++ "\x7d"

/-- Array element rendering for `stringifyAt`. -/
def stringifyElems : Nat → List Json → List String
  | _, [] => []
  | ind, x :: xs =>
    (match x with
     | .undef => "null"
     | v => stringifyAt ind v) :: stringifyElems ind xs

/-- Object member rendering for `stringifyAt`. -/
def stringifyMembers : Nat → List (String × Json) → List String
  | _, [] => []
  | ind, (k, v) :: fs =>
    match v with
    | .undef => stringifyMembers ind fs
    | v => (jsonQuote k ++ ": " ++ stringifyAt ind v) :: stringifyMembers ind fs

end

-- ============================================================================
-- ToolResult and ResponseFormatter (src/response-formatter.js)
-- ============================================================================

/-- One entry of a ToolResult's `content` array (always `type: "text"` in
this server). -/
structure ContentItem where
  type : String
  text : String

/-- The normalized MCP tool result: a list of content items plus the
`isError` flag, which is absent (`none`) on success responses and `some
true` on error responses, exactly as the formatter emits it. -/
structure ToolResult where
  content : List ContentItem
  isError : Option Bool

/-- Upstream HTTP response as seen by a handler: axios' `status` and parsed
JSON `data`. -/
structure ApiResponse where
  status : Int
  data : Json

/-- Caught JavaScript exception as inspected by `ResponseFormatter.fromError`:
an optional axios `response`, an optional error `code`, and a `message`. -/
structure JsError where
  response : Option ApiResponse
  code : Option String
  message : String

/-- Error message selection of `ResponseFormatter.fromApiResponse` for
statuses at least 400: `data?.message || data?.error || "API error (status)"`. -/
def apiErrorMessage (status : Int) (data : Json) : Json :=
  if jsTruthy (jsGet data "message") then jsGet data "message"
  else if jsTruthy (jsGet data "error") then jsGet data "error"
  else .str ("API error (" ++ toString status ++ ")")

namespace ResponseFormatter

/-- Mirror of `ResponseFormatter.ok`: a success response whose text is the
data itself when it is a string, and its indented JSON rendering otherwise.
The `isError` flag is absent. -/
def ok (data : Json) : ToolResult :=
  ⟨[⟨"text", match data with
             | .str s => s
             | v => stringifyAt 0 v⟩], none⟩

/-- Mirror of `ResponseFormatter.error`: the text is the indented JSON
rendering of `\x7berror: \x7bmessage, ...details\x7d\x7d` and `isError` is true. -/
def error (message : Json) (details : List (String × Json)) : ToolResult :=
  ⟨[⟨"text", stringifyAt 0 (.obj [("error", .obj (objAssign [("message", message)] details))])⟩],
   some true⟩

/-- Mirror of `ResponseFormatter.fromApiResponse`: statuses at least 400
become an error carrying the upstream message, the status and the raw body;
otherwise a success, with `\x7bmessage: successMessage, ...data\x7d` when a
success message is supplied and the body verbatim when not. -/
def fromApiResponse (response : ApiResponse) (successMessage : Option String) : ToolResult :=
  if 400 ≤ response.status then
    ResponseFormatter.error (apiErrorMessage response.status response.data)
      [("status", .num response.status), ("details", response.data)]
  else
    match successMessage with
    | some msg =>
      ResponseFormatter.ok (.obj (objAssign [("message", .str msg)] (jsSpreadFields response.data)))
    | none => ResponseFormatter.ok response.data

/-- Mirror of `ResponseFormatter.fromError`: an axios error with a response
reports status, message and body; `ECONNABORTED` reports a timeout;
`ENOTFOUND`/`ECONNREFUSED` report a network error; anything else reports the
exception message under the given context. -/
def fromError (e : JsError) (context : String) : ToolResult :=
  match e.response with
  | some resp =>
    ResponseFormatter.error (.str context)
      [("status", .num resp.status),
       ("message", if jsTruthy (jsGet resp.data "message") then jsGet resp.data "message"
                   else .str e.message),
       ("details", resp.data)]
  | none =>
    if e.code = some "ECONNABORTED" then
      ResponseFormatter.error (.str "Request timeout")
        [("context", .str context),
         ("suggestion", .str "The API request took too long. Try again or use smaller batch sizes.")]
    else if e.code = some "ENOTFOUND" ∨ e.code = some "ECONNREFUSED" then
      ResponseFormatter.error (.str "Network error")
        [("context", .str context),
         ("suggestion", .str "Unable to reach the API. Check your internet connection.")]
    else
      ResponseFormatter.error (.str context) [("message", .str e.message)]

end ResponseFormatter

-- ============================================================================
-- Credential resolution (getApiKey / validateApiKey, src/index.js)
-- ============================================================================

/-- Request headers carried by the HTTP transport (name-value pairs; Node
delivers at most one value per header name). -/
def Headers := List (String × String)

/-- The `extra` context passed to handlers: `extra?.requestInfo?.headers`
collapses to the header map when present. -/
def Extra := Option (List (String × String))

/-- First binding of a header name (exact, case-sensitive key match, as
JavaScript property lookup on the headers object). -/
def hlookup : List (String × String) → String → Option String
  | [], _ => none
  | (k', v) :: rest, k => if k' = k then some v else hlookup rest k

/-- Second branch of `getApiKey`: `headers["x-api-key"] || headers["X-Api-Key"]`
when truthy, else the process-wide fallback key. -/
def xApiKeyFallback (headers : List (String × String)) (envKey : Option String) : Option String :=
  match strOr (hlookup headers "x-api-key") (hlookup headers "X-Api-Key") with
  | some k => if jsIsEmpty k then envKey else some k
  | none => envKey

/-- Mirror of `getApiKey`: Bearer token from the `authorization` or
`Authorization` header when that value starts with "Bearer ", else the
`x-api-key`/`X-Api-Key` header, else the `DYNAMIC_MOCKUPS_API_KEY`
environment value (`none` models an unset variable). -/
def getApiKey (extra : Extra) (envKey : Option String) : Option String :=
  match extra with
  | none => envKey
  | some headers =>
    match strOr (hlookup headers "authorization") (hlookup headers "Authorization") with
    | some a =>
      if !jsIsEmpty a && jsStartsWith a "Bearer " then some (jsDrop a 7)
      else xApiKeyFallback headers envKey
    | none => xApiKeyFallback headers envKey

/-- The "API key not configured" error result produced by `validateApiKey`. -/
def apiKeyNotConfigured : ToolResult :=
  ResponseFormatter.error (.str "API key not configured")
    [("solution", .str "Provide your Dynamic Mockups API key. For HTTP transport, use the Authorization header (Bearer token). For stdio transport, set the DYNAMIC_MOCKUPS_API_KEY environment variable."),
     ("get_key_at", .str "https://app.dynamicmockups.com/dashboard-api")]

/-- Mirror of `validateApiKey`: an error result when the key is missing or
empty, nothing otherwise. -/
def validateApiKey (apiKey : Option String) : Option ToolResult :=
  if jsFalsyStr apiKey then some apiKeyNotConfigured else none

-- ============================================================================
-- Upstream client model (createApiClient / axios) and usage tracking
-- ============================================================================

/-- One attempted upstream HTTP request: method, path, query parameters,
JSON body, and the `x-api-key` header value (`apiKey || ""`). -/
structure UpstreamCall where
  method : String
  path : String
  query : List (String × String)
  body : Option Json
  apiKey : String

/-- Outcome of attempting an upstream request on the wire: an HTTP reply
(any status) or a network-level failure with an error code and message. -/
inductive NetOutcome where
  | reply (status : Int) (data : Json)
  | netFailure (code : String) (message : String)

/-- The upstream API as an oracle from attempted requests to outcomes. -/
def Oracle := UpstreamCall → NetOutcome

/-- The `apiKey || ""` coercion used for the `x-api-key` request header. -/
def keyString (apiKey : Option String) : String := apiKey.getD ""

/-- Behaviour of the client built by `createApiClient`: replies with status
below 500 are returned (`validateStatus: (status) => status < 500`); 5xx
replies and network failures are thrown as exceptions. -/
def clientExec (oracle : Oracle) (call : UpstreamCall) : Except JsError ApiResponse :=
  match oracle call with
  | .reply status data =>
    if status < 500 then .ok ⟨status, data⟩
    else .error ⟨some ⟨status, data⟩, none, "Request failed with status code " ++ toString status⟩
  | .netFailure code msg => .error ⟨none, some code, msg⟩

/-- Shared tail of every network handler: execute the request, then
normalize the reply via `fromApiResponse` or the caught exception via
`fromError`. The attempted call is recorded either way. -/
def clientRun (oracle : Oracle) (call : UpstreamCall) (successMessage : Option String)
    (context : String) : ToolResult × List UpstreamCall :=
  match clientExec oracle call with
  | .ok resp => (ResponseFormatter.fromApiResponse resp successMessage, [call])
  | .error e => (ResponseFormatter.fromError e context, [call])

/-- Mirror of `trackToolUsage`: fire-and-forget telemetry POST to
`/mcp/track`, skipped entirely when no API key is available. Only the
attempted request matters here; its outcome is ignored by the server. -/
def trackToolUsage (toolName : String) (apiKey : Option String) (success : Bool)
    (error : Option String) : List UpstreamCall :=
  if jsFalsyStr apiKey then []
  else [⟨"POST", "/mcp/track", [],
         some (.obj [("tool", .str toolName), ("success", .bool success),
                     ("error", match error with
                               | some m => if jsIsEmpty m then .null else .str m
                               | none => .null)]),
         keyString apiKey⟩]

-- ============================================================================
-- Tool handlers (src/index.js)
-- ============================================================================

/-- Lookup of a computed key in a topic map: JavaScript `topicMap[topic]`
with a string topic (non-string topics coerce to property keys that do not
occur in these maps). -/
def topicKeyLookup (map : List (String × Json)) : Json → Json
  | .str s => assocGet map s
  | _ => Json.undef

/-- Body of `handleGetApiInfo` as a function of `args?.topic`: selects a
slice of the knowledge base `kb` by topic, defaulting to the whole base. -/
def apiInfoResult (kb topic0 : Json) : ToolResult :=
  let topic := jsOrJ topic0 (.str "all")
  let topicMap : List (String × Json) := [
    ("integration", .obj [("integration", jsGet kb "integration")]),
    ("billing", .obj [("billing", jsGet kb "billing")]),
    ("rate_limits", .obj [("rate_limits", jsGet kb "rate_limits")]),
    ("formats", .obj [("supported_formats", jsGet kb "supported_formats"),
                      ("asset_upload", jsGet kb "asset_upload")]),
    ("best_practices", .obj [("best_practices", jsGet kb "best_practices")]),
    ("support", .obj [("support", jsGet kb "support")]),
    ("all", kb)]
  ResponseFormatter.ok (jsOrJ (topicKeyLookup topicMap topic) kb)

/-- Mirror of `handleGetApiInfo`: a purely local lookup into the static
`API_KNOWLEDGE_BASE` object (embedded abstractly as `kb`, whose contents no
claim depends on). Performs no upstream request. -/
def handleGetApiInfo (kb args : Json) : ToolResult :=
  apiInfoResult kb (jsGet args "topic")

/-- Body of `handleGetEmbedEditorInfo` as a function of `args?.topic`. -/
def embedInfoResult (ekb topic0 : Json) : ToolResult :=
  let topic := jsOrJ topic0 (.str "all")
  let steps := jsGet ekb "integration_steps"
  let topicMap : List (String × Json) := [
    ("quick_start", .obj [("overview", jsGet ekb "overview"),
                          ("quick_start", jsGet ekb "quick_start"),
                          ("init_function_params", jsGet ekb "init_function_params"),
                          ("integration_steps", steps)]),
    ("npm_integration", .obj [("npm_integration", jsGet ekb "npm_integration"),
                              ("init_function_params", jsGet ekb "init_function_params"),
                              ("integration_steps", .obj [("classic_npm", jsGet steps "classic_npm")])]),
    ("data_options", .obj [("data_options", jsGet ekb "data_options")]),
    ("callback_response", .obj [("callback_response", jsGet ekb "callback_response")]),
    ("mockanything_api", .obj [("mockanything_api_integration", jsGet ekb "mockanything_api_integration"),
                               ("mockanything_events", jsGet ekb "mockanything_events"),
                               ("integration_steps", .obj [("mockanything_static", jsGet steps "mockanything_static"),
                                                           ("mockanything_api", jsGet steps "mockanything_api")])]),
    ("mockanything_events", .obj [("mockanything_events", jsGet ekb "mockanything_events")]),
    ("react_example", .obj [("react_example", jsGet ekb "react_example"),
                            ("integration_steps", .obj [("mockanything_api", jsGet steps "mockanything_api")])]),
    ("editor_types", .obj [("editor_types", jsGet ekb "editor_types")]),
    ("specific_mockup", .obj [("specific_mockup", jsGet ekb "specific_mockup")]),
    ("integration_steps", .obj [("integration_steps", steps)]),
    ("all", ekb)]
  ResponseFormatter.ok (jsOrJ (topicKeyLookup topicMap topic) ekb)

/-- Mirror of `handleGetEmbedEditorInfo`: a purely local lookup into the
static `EMBED_EDITOR_KNOWLEDGE_BASE` object (embedded abstractly as `ekb`). -/
def handleGetEmbedEditorInfo (ekb args : Json) : ToolResult :=
  embedInfoResult ekb (jsGet args "topic")

/-- Mirror of `handleGetCatalogs`. -/
def handleGetCatalogs (envKey : Option String) (oracle : Oracle) (args : Json) (extra : Extra) :
    ToolResult × List UpstreamCall :=
  let apiKey := getApiKey extra envKey
  match validateApiKey apiKey with
  | some err => (err, [])
  | none =>
    clientRun oracle ⟨"GET", "/catalogs", [], none, keyString apiKey⟩ none "Failed to get catalogs"

/-- Query parameters built by `handleGetCollections`. -/
def collectionsParams (args : Json) : List (String × String) :=
  (if jsTruthy (jsGet args "catalog_uuid") then
    [("catalog_uuid", jsToString (jsGet args "catalog_uuid"))] else []) ++
  (match jsGet args "include_all_catalogs" with
   | .undef => []
   | v => [("include_all_catalogs", jsToString v)])

/-- Mirror of `handleGetCollections`. -/
def handleGetCollections (envKey : Option String) (oracle : Oracle) (args : Json) (extra : Extra) :
    ToolResult × List UpstreamCall :=
  let apiKey := getApiKey extra envKey
  match validateApiKey apiKey with
  | some err => (err, [])
  | none =>
    clientRun oracle ⟨"GET", "/collections", collectionsParams args, none, keyString apiKey⟩
      none "Failed to get collections"

/-- Mirror of `handleCreateCollection`. -/
def handleCreateCollection (envKey : Option String) (oracle : Oracle) (args : Json) (extra : Extra) :
    ToolResult × List UpstreamCall :=
  let apiKey := getApiKey extra envKey
  match validateApiKey apiKey with
  | some err => (err, [])
  | none =>
    let payload := [("name", jsGet args "name")] ++
      (if jsTruthy (jsGet args "catalog_uuid") then [("catalog_uuid", jsGet args "catalog_uuid")] else [])
    clientRun oracle ⟨"POST", "/collections", [], some (.obj payload), keyString apiKey⟩
      (some ("Collection \"" ++ jsToString (jsGet args "name") ++ "\" created"))
      "Failed to create collection"

/-- Query parameters built by `handleGetMockups`. -/
def mockupsParams (args : Json) : List (String × String) :=
  (if jsTruthy (jsGet args "catalog_uuid") then
    [("catalog_uuid", jsToString (jsGet args "catalog_uuid"))] else []) ++
  (if jsTruthy (jsGet args "collection_uuid") then
    [("collection_uuid", jsToString (jsGet args "collection_uuid"))] else []) ++
  (match jsGet args "include_all_catalogs" with
   | .undef => []
   | v => [("include_all_catalogs", jsToString v)]) ++
  (if jsTruthy (jsGet args "name") then [("name", jsToString (jsGet args "name"))] else [])

/-- Mirror of `handleGetMockups`. -/
def handleGetMockups (envKey : Option String) (oracle : Oracle) (args : Json) (extra : Extra) :
    ToolResult × List UpstreamCall :=
  let apiKey := getApiKey extra envKey
  match validateApiKey apiKey with
  | some err => (err, [])
  | none =>
    clientRun oracle ⟨"GET", "/mockups", mockupsParams args, none, keyString apiKey⟩
      none "Failed to get mockups"

/-- Mirror of `handleGetMockupByUuid`. -/
def handleGetMockupByUuid (envKey : Option String) (oracle : Oracle) (args : Json) (extra : Extra) :
    ToolResult × List UpstreamCall :=
  let apiKey := getApiKey extra envKey
  match validateApiKey apiKey with
  | some err => (err, [])
  | none =>
    clientRun oracle ⟨"GET", "/mockup/" ++ jsToString (jsGet args "uuid"), [], none, keyString apiKey⟩
      none "Failed to get mockup"

/-- Render payload built by `handleCreateRender` (and, with the same shape,
by `handleExportPrintFiles`): required fields copied verbatim, optional
fields added only when truthy. -/
def createRenderPayload (args : Json) : List (String × Json) :=
  let p0 := [("mockup_uuid", jsGet args "mockup_uuid"), ("smart_objects", jsGet args "smart_objects")]
  let p1 := if jsTruthy (jsGet args "export_label") then
    p0 ++ [("export_label", jsGet args "export_label")] else p0
  let p2 := if jsTruthy (jsGet args "export_options") then
    p1 ++ [("export_options", jsGet args "export_options")] else p1
  if jsTruthy (jsGet args "text_layers") then
    p2 ++ [("text_layers", jsGet args "text_layers")] else p2

/-- Mirror of `handleCreateRender`. -/
def handleCreateRender (envKey : Option String) (oracle : Oracle) (args : Json) (extra : Extra) :
    ToolResult × List UpstreamCall :=
  let apiKey := getApiKey extra envKey
  match validateApiKey apiKey with
  | some err => (err, [])
  | none =>
    clientRun oracle ⟨"POST", "/renders", [], some (.obj (createRenderPayload args)), keyString apiKey⟩
      (some "Render created (1 credit used)") "Failed to create render"

/-- The `args.renders?.length || 0` credit count of `handleCreateBatchRender`. -/
def batchRenderCount (args : Json) : Json :=
  let l := match jsGet args "renders" with
           | .arr xs => Json.num xs.length
           | .str s => Json.num s.length
           | .obj fs => assocGet fs "length"
           | _ => Json.undef
  if jsTruthy l then l else .num 0

/-- Mirror of `handleCreateBatchRender`. -/
def handleCreateBatchRender (envKey : Option String) (oracle : Oracle) (args : Json) (extra : Extra) :
    ToolResult × List UpstreamCall :=
  let apiKey := getApiKey extra envKey
  match validateApiKey apiKey with
  | some err => (err, [])
  | none =>
    let payload := [("renders", jsGet args "renders")] ++
      (if jsTruthy (jsGet args "export_options") then
        [("export_options", jsGet args "export_options")] else [])
    clientRun oracle ⟨"POST", "/renders/batch", [], some (.obj payload), keyString apiKey⟩
      (some ("Batch render complete (" ++ jsToString (batchRenderCount args) ++ " credits used)"))
      "Failed to create batch render"

/-- Mirror of `handleExportPrintFiles` (its payload construction is
line-for-line the one of `handleCreateRender`). -/
def handleExportPrintFiles (envKey : Option String) (oracle : Oracle) (args : Json) (extra : Extra) :
    ToolResult × List UpstreamCall :=
  let apiKey := getApiKey extra envKey
  match validateApiKey apiKey with
  | some err => (err, [])
  | none =>
    clientRun oracle ⟨"POST", "/renders/print-files", [], some (.obj (createRenderPayload args)), keyString apiKey⟩
      (some "Print files exported") "Failed to export print files"

/-- Mirror of `handleUploadPsd`. -/
def handleUploadPsd (envKey : Option String) (oracle : Oracle) (args : Json) (extra : Extra) :
    ToolResult × List UpstreamCall :=
  let apiKey := getApiKey extra envKey
  match validateApiKey apiKey with
  | some err => (err, [])
  | none =>
    let payload := [("psd_file_url", jsGet args "psd_file_url")] ++
      (if jsTruthy (jsGet args "psd_name") then [("psd_name", jsGet args "psd_name")] else []) ++
      (if jsTruthy (jsGet args "psd_category_id") then
        [("psd_category_id", jsGet args "psd_category_id")] else []) ++
      (if jsTruthy (jsGet args "mockup_template") then
        [("mockup_template", jsGet args "mockup_template")] else [])
    clientRun oracle ⟨"POST", "/psd/upload", [], some (.obj payload), keyString apiKey⟩
      (some "PSD uploaded successfully") "Failed to upload PSD"

/-- Mirror of `handleDeletePsd`. -/
def handleDeletePsd (envKey : Option String) (oracle : Oracle) (args : Json) (extra : Extra) :
    ToolResult × List UpstreamCall :=
  let apiKey := getApiKey extra envKey
  match validateApiKey apiKey with
  | some err => (err, [])
  | none =>
    let payload := [("psd_uuid", jsGet args "psd_uuid")] ++
      (match jsGet args "delete_related_mockups" with
       | .undef => []
       | v => [("delete_related_mockups", v)])
    clientRun oracle ⟨"POST", "/psd/delete", [], some (.obj payload), keyString apiKey⟩
      (some "PSD deleted successfully") "Failed to delete PSD"

-- ============================================================================
-- Tool router (CallToolRequestSchema handler, src/index.js)
-- ============================================================================

/-- Type of a registered handler as invoked by the router. Handlers return
the result together with the upstream requests they attempted, or throw; the
concrete handlers of this server never throw (each wraps its work in
try/catch), but the router's failure boundary is stated for any handler. -/
def HandlerFn := Json → Extra → Except JsError (ToolResult × List UpstreamCall)

/-- Mirror of the `toolHandlers` table. -/
def toolHandlers (kb ekb : Json) (envKey : Option String) (oracle : Oracle) :
    String → Option HandlerFn
  | "get_api_info" => some (fun args _ => .ok (handleGetApiInfo kb args, []))
  | "embed_mockup_editor" => some (fun args _ => .ok (handleGetEmbedEditorInfo ekb args, []))
  | "get_catalogs" => some (fun args extra => .ok (handleGetCatalogs envKey oracle args extra))
  | "get_collections" => some (fun args extra => .ok (handleGetCollections envKey oracle args extra))
  | "create_collection" => some (fun args extra => .ok (handleCreateCollection envKey oracle args extra))
  | "get_mockups" => some (fun args extra => .ok (handleGetMockups envKey oracle args extra))
  | "get_mockup_by_uuid" => some (fun args extra => .ok (handleGetMockupByUuid envKey oracle args extra))
  | "create_render" => some (fun args extra => .ok (handleCreateRender envKey oracle args extra))
  | "create_batch_render" => some (fun args extra => .ok (handleCreateBatchRender envKey oracle args extra))
  | "export_print_files" => some (fun args extra => .ok (handleExportPrintFiles envKey oracle args extra))
  | "upload_psd" => some (fun args extra => .ok (handleUploadPsd envKey oracle args extra))
  | "delete_psd" => some (fun args extra => .ok (handleDeletePsd envKey oracle args extra))
  | _ => none

/-- The `args || \x7b\x7d` defaulting applied before invoking a handler. -/
def jsArgsOrEmpty (args : Json) : Json := if jsTruthy args then args else .obj []

/-- Error-message extraction for tracking:
`isError && result.content?.[0]?.text ? result.content[0].text : null`. -/
def errorMessageOf (isErr : Bool) (content : List ContentItem) : Option String :=
  if isErr then
    match content.head? with
    | some c => if jsIsEmpty c.text then none else some c.text
    | none => none
  else none

/-- The `err.message || "Error executing name"` fallback used when tracking
a handler exception. -/
def errMessageOr (e : JsError) (name : String) : String :=
  if jsIsEmpty e.message then "Error executing " ++ name else e.message

/-- The router body over an arbitrary handler-table entry: resolve the
credential, answer "Unknown tool" when no handler is registered, otherwise
invoke the handler inside a failure boundary that converts any thrown
exception into an error result via `fromError`. The returned list collects
every upstream request attempted, including the fire-and-forget telemetry
POST. A `.error` outcome would model an exception escaping to the transport
layer; the router never produces one. -/
def callToolWith (handlerOpt : Option HandlerFn) (name : String) (args : Json) (extra : Extra)
    (envKey : Option String) : Except JsError (ToolResult × List UpstreamCall) :=
  let apiKey := getApiKey extra envKey
  match handlerOpt with
  | none =>
    let result := ResponseFormatter.error (.str ("Unknown tool: " ++ name)) []
    .ok (result, trackToolUsage name apiKey false (some ("Unknown tool: " ++ name)))
  | some handler =>
    match handler (jsArgsOrEmpty args) extra with
    | .ok (result, calls) =>
      let isErr := result.isError.getD false
      .ok (result, calls ++ trackToolUsage name apiKey (!isErr) (errorMessageOf isErr result.content))
    | .error err =>
      .ok (ResponseFormatter.fromError err ("Error executing " ++ name),
           trackToolUsage name apiKey false (some (errMessageOr err name)))

/-- Mirror of the `CallToolRequestSchema` handler: route by tool name
through the registered handler table. -/
def callTool (kb ekb : Json) (envKey : Option String) (oracle : Oracle) (name : String)
    (args : Json) (extra : Extra) : Except JsError (ToolResult × List UpstreamCall) :=
  callToolWith (toolHandlers kb ekb envKey oracle name) name args extra envKey

/-- The tools whose handlers contact the upstream API (all registered tools
except the two local knowledge-base lookups). -/
def netToolNames : List String :=
  ["get_catalogs", "get_collections", "create_collection", "get_mockups",
   "get_mockup_by_uuid", "create_render", "create_batch_render",
   "export_print_files", "upload_psd", "delete_psd"]

/-- An arbitrary concrete upstream used to instantiate oracle-independent
statements. -/
def anyOracle : Oracle := fun _ => .reply 200 (.obj [])

/-- A handler that always throws, used to exercise the router's failure
boundary at a concrete input. -/
def throwingHandler : HandlerFn := fun _ _ => .error ⟨none, none, "boom"⟩

-- ============================================================================
-- Helper lemmas
-- ============================================================================

theorem bearer_append_isEmpty (X : String) : jsIsEmpty ("Bearer " ++ X) = false := by
  simp [jsIsEmpty, String.data_append]

theorem bearer_append_startsWith (X : String) : jsStartsWith ("Bearer " ++ X) "Bearer " = true := by
  simp [jsStartsWith, String.data_append, List.isPrefixOf_iff_prefix]

theorem bearer_append_drop (X : String) : jsDrop ("Bearer " ++ X) 7 = X := by
  apply String.ext
  simp [jsDrop, String.data_append]

theorem ok_isError (d : Json) : (ResponseFormatter.ok d).isError = none := rfl

theorem error_isError (m : Json) (d : List (String × Json)) :
    (ResponseFormatter.error m d).isError = some true := rfl

theorem fromError_isError (e : JsError) (ctx : String) :
    (ResponseFormatter.fromError e ctx).isError = some true := by
  unfold ResponseFormatter.fromError
  rcases e with ⟨r, c, m⟩
  cases r <;> simp <;> split_ifs <;> rfl

theorem trackToolUsage_falsy {k : Option String} (h : jsFalsyStr k = true)
    (n : String) (s : Bool) (e : Option String) : trackToolUsage n k s e = [] := by
  simp [trackToolUsage, h]

theorem trackToolUsage_mem (n : String) (k : Option String) (s : Bool) (e : Option String) :
    ∀ c ∈ trackToolUsage n k s e, c.path = "/mcp/track" ∧ c.method = "POST" := by
  intro c hc
  unfold trackToolUsage at hc
  split at hc
  · simp at hc
  · simp at hc
    subst hc
    exact ⟨rfl, rfl⟩

theorem clientRun_calls (oracle : Oracle) (call : UpstreamCall) (sm : Option String)
    (ctx : String) : ∀ c ∈ (clientRun oracle call sm ctx).2, c = call := by
  intro c hc
  unfold clientRun at hc
  split at hc <;> simpa using hc

theorem assocGet_setField_self (l : List (String × Json)) (k : String) (v : Json) :
    assocGet (setField l k v) k = v := by
  induction l with
  | nil => simp [setField, assocGet]
  | cons kv rest ih =>
    obtain ⟨k', v'⟩ := kv
    by_cases h : k' = k
    · simp [setField, h, assocGet]
    · simp [setField, h, assocGet, ih]

theorem assocGet_setField_other (l : List (String × Json)) (k : String) (v : Json)
    (k' : String) (h : k' ≠ k) : assocGet (setField l k v) k' = assocGet l k' := by
  induction l with
  | nil => simp [setField, assocGet, Ne.symm h]
  | cons kv rest ih =>
    obtain ⟨k0, v0⟩ := kv
    by_cases h0 : k0 = k
    · subst h0
      simp [setField, assocGet, Ne.symm h]
    · by_cases h1 : k0 = k'
      · simp [setField, assocGet, h0, h1, h]
      · simp [setField, assocGet, h0, h1, ih]

theorem assocGet_objAssign_not_mem (extra : List (String × Json)) :
    ∀ (base : List (String × Json)) (k : String), k ∉ extra.map Prod.fst →
      assocGet (objAssign base extra) k = assocGet base k := by
  induction extra with
  | nil => intro base k _; rfl
  | cons kv rest ih =>
    intro base k h
    obtain ⟨k0, v0⟩ := kv
    simp only [List.map_cons, List.mem_cons] at h
    push_neg at h
    rw [objAssign, ih _ _ h.2, assocGet_setField_other _ _ _ _ h.1]

theorem assocGet_objAssign_nodup (extra : List (String × Json)) :
    ∀ (base : List (String × Json)) (k : String) (v : Json),
      (extra.map Prod.fst).Nodup → assocGet extra k = v → v ≠ .undef →
      assocGet (objAssign base extra) k = v := by
  induction extra with
  | nil =>
    intro base k v _ hget hne
    exact absurd hget.symm hne
  | cons kv rest ih =>
    intro base k v hnd hget hne
    obtain ⟨k0, v0⟩ := kv
    simp only [List.map_cons, List.nodup_cons] at hnd
    rw [objAssign]
    by_cases h0 : k0 = k
    · subst h0
      have hv : v0 = v := by simpa [assocGet] using hget
      subst hv
      rw [assocGet_objAssign_not_mem rest _ _ hnd.1, assocGet_setField_self]
    · have hget' : assocGet rest k = v := by simpa [assocGet, h0] using hget
      exact ih _ _ _ hnd.2 hget' hne

theorem handleGetApiInfo_isError (kb a : Json) : (handleGetApiInfo kb a).isError = none := rfl

theorem router_ok_branch (hfn : HandlerFn) (kb ekb : Json) (envKey : Option String)
    (oracle : Oracle) (name : String) (args : Json) (extra : Extra)
    (r : ToolResult) (cs : List UpstreamCall)
    (hname : toolHandlers kb ekb envKey oracle name = some hfn)
    (hh : hfn (jsArgsOrEmpty args) extra = .ok (r, cs)) :
    callTool kb ekb envKey oracle name args extra =
      .ok (r, cs ++ trackToolUsage name (getApiKey extra envKey) (!(r.isError.getD false))
        (errorMessageOf (r.isError.getD false) r.content)) := by
  simp [callTool, callToolWith, hname, hh]

theorem handler_nokey_router (hfn : HandlerFn) (kb ekb : Json) (envKey : Option String)
    (oracle : Oracle) (name : String) (args : Json) (extra : Extra)
    (hname : toolHandlers kb ekb envKey oracle name = some hfn)
    (hh : hfn (jsArgsOrEmpty args) extra = .ok (apiKeyNotConfigured, []))
    (hfalsy : jsFalsyStr (getApiKey extra envKey) = true) :
    callTool kb ekb envKey oracle name args extra = .ok (apiKeyNotConfigured, []) := by
  rw [router_ok_branch hfn kb ekb envKey oracle name args extra _ _ hname hh,
    trackToolUsage_falsy hfalsy]
  rfl

theorem net_tool_no_key (kb ekb : Json) (envKey : Option String) (oracle : Oracle)
    (name : String) (args : Json) (extra : Extra)
    (hmem : name ∈ netToolNames)
    (hfalsy : jsFalsyStr (getApiKey extra envKey) = true) :
    callTool kb ekb envKey oracle name args extra = .ok (apiKeyNotConfigured, []) := by
  simp only [netToolNames, List.mem_cons, List.not_mem_nil, or_false] at hmem
  rcases hmem with h | h | h | h | h | h | h | h | h | h <;> subst h
  · exact handler_nokey_router _ kb ekb envKey oracle _ args extra rfl
      (by simp [handleGetCatalogs, validateApiKey, hfalsy]) hfalsy
  · exact handler_nokey_router _ kb ekb envKey oracle _ args extra rfl
      (by simp [handleGetCollections, validateApiKey, hfalsy]) hfalsy
  · exact handler_nokey_router _ kb ekb envKey oracle _ args extra rfl
      (by simp [handleCreateCollection, validateApiKey, hfalsy]) hfalsy
  · exact handler_nokey_router _ kb ekb envKey oracle _ args extra rfl
      (by simp [handleGetMockups, validateApiKey, hfalsy]) hfalsy
  · exact handler_nokey_router _ kb ekb envKey oracle _ args extra rfl
      (by simp [handleGetMockupByUuid, validateApiKey, hfalsy]) hfalsy
  · exact handler_nokey_router _ kb ekb envKey oracle _ args extra rfl
      (by simp [handleCreateRender, validateApiKey, hfalsy]) hfalsy
  · exact handler_nokey_router _ kb ekb envKey oracle _ args extra rfl
      (by simp [handleCreateBatchRender, validateApiKey, hfalsy]) hfalsy
  · exact handler_nokey_router _ kb ekb envKey oracle _ args extra rfl
      (by simp [handleExportPrintFiles, validateApiKey, hfalsy]) hfalsy
  · exact handler_nokey_router _ kb ekb envKey oracle _ args extra rfl
      (by simp [handleUploadPsd, validateApiKey, hfalsy]) hfalsy
  · exact handler_nokey_router _ kb ekb envKey oracle _ args extra rfl
      (by simp [handleDeletePsd, validateApiKey, hfalsy]) hfalsy

theorem callToolWith_total :
    ∀ (hOpt : Option HandlerFn) (name : String) (args : Json) (extra : Extra)
      (envKey : Option String),
      ∃ tr calls, callToolWith hOpt name args extra envKey = .ok (tr, calls) ∧
        (∀ h e, hOpt = some h → h (jsArgsOrEmpty args) extra = .error e →
          tr = ResponseFormatter.fromError e ("Error executing " ++ name) ∧
          tr.isError = some true) := by
  intro hOpt name args extra envKey
  cases hOpt with
  | none =>
    exact ⟨ResponseFormatter.error (.str ("Unknown tool: " ++ name)) [],
      trackToolUsage name (getApiKey extra envKey) false (some ("Unknown tool: " ++ name)),
      rfl, fun h e hc => absurd hc (by simp)⟩
  | some h =>
    cases hres : h (jsArgsOrEmpty args) extra with
    | ok rc =>
      obtain ⟨r, cs⟩ := rc
      refine ⟨r, cs ++ trackToolUsage name (getApiKey extra envKey) (!(r.isError.getD false))
        (errorMessageOf (r.isError.getD false) r.content), ?_, ?_⟩
      · simp [callToolWith, hres]
      · intro h' e hsome heq
        injection hsome with hh
        subst hh
        rw [hres] at heq
        exact absurd heq (by simp)
    | error e0 =>
      refine ⟨ResponseFormatter.fromError e0 ("Error executing " ++ name),
        trackToolUsage name (getApiKey extra envKey) false (some (errMessageOr e0 name)), ?_, ?_⟩
      · simp [callToolWith, hres]
      · intro h' e hsome heq
        injection hsome with hh
        subst hh
        rw [hres] at heq
        injection heq with he
        subst he
        exact ⟨rfl, fromError_isError _ _⟩

-- ============================================================================
-- Claim theorems
-- ============================================================================

/-- C1: for every incoming tool invocation (any tool name, arguments and
transport context, and indeed any handler-table entry, throwing or not), the
router returns exactly one ToolResult and never lets an exception escape to
the transport layer; an exception thrown by the handler is converted into
the error ToolResult built by `ResponseFormatter.fromError`. -/
theorem router_never_raises :
    (∀ (hOpt : Option HandlerFn) (name : String) (args : Json) (extra : Extra)
       (envKey : Option String),
       ∃ tr calls, callToolWith hOpt name args extra envKey = .ok (tr, calls) ∧
         (∀ h e, hOpt = some h → h (jsArgsOrEmpty args) extra = .error e →
           tr = ResponseFormatter.fromError e ("Error executing " ++ name) ∧
           tr.isError = some true)) ∧
    (∀ (kb ekb : Json) (envKey : Option String) (oracle : Oracle) (name : String)
       (args : Json) (extra : Extra),
       ∃ tr calls, callTool kb ekb envKey oracle name args extra = .ok (tr, calls)) := by
  refine ⟨callToolWith_total, ?_⟩
  intro kb ekb envKey oracle name args extra
  obtain ⟨tr, calls, h1, _⟩ :=
    callToolWith_total (toolHandlers kb ekb envKey oracle name) name args extra envKey
  exact ⟨tr, calls, h1⟩

/-- Witness for C1 at a concrete throwing handler and a concrete routed
call. -/
theorem router_never_raises_witness :
    ∃ tr calls, callToolWith (some throwingHandler) "get_mockups" (.obj []) none none =
      .ok (tr, calls) := by
  obtain ⟨tr, calls, h1, _⟩ :=
    router_never_raises.1 (some throwingHandler) "get_mockups" (.obj []) none none
  exact ⟨tr, calls, h1⟩

/-- C2: when the transport context carries an Authorization header whose
value is `Bearer X` (under either header-name spelling the resolver reads),
credential resolution returns exactly X, regardless of any `x-api-key`
header also present and of any configured process-wide fallback key. -/
theorem bearer_credential_wins :
    ∀ (hs : List (String × String)) (X : String) (envKey : Option String),
      (hlookup hs "authorization" = some ("Bearer " ++ X) ∨
        (jsFalsyStr (hlookup hs "authorization") = true ∧
          hlookup hs "Authorization" = some ("Bearer " ++ X))) →
      getApiKey (some hs) envKey = some X := by
  intro hs X envKey h
  have hstr : strOr (hlookup hs "authorization") (hlookup hs "Authorization") =
      some ("Bearer " ++ X) := by
    rcases h with h1 | ⟨hf, h2⟩
    · simp [strOr, h1, jsFalsyStr, bearer_append_isEmpty]
    · simp [strOr, hf, h2]
  simp [getApiKey, hstr, bearer_append_isEmpty, bearer_append_startsWith, bearer_append_drop]

/-- Witness for C2: a Bearer credential wins over a simultaneously present
`x-api-key` header and a configured fallback key. -/
theorem bearer_credential_wins_witness :
    getApiKey (some [("authorization", "Bearer secret"), ("x-api-key", "other")]) (some "env") =
      some "secret" :=
  bearer_credential_wins _ "secret" _ (Or.inl (by decide))

/-- C3: when no credential is resolvable (resolution yields nothing or the
empty string), every network-calling tool answers with the "API key not
configured" error result and attempts no upstream request of any kind, not
even the telemetry POST. -/
theorem no_credential_no_upstream :
    ∀ (name : String), name ∈ netToolNames →
      ∀ (kb ekb : Json) (envKey : Option String) (oracle : Oracle) (args : Json) (extra : Extra),
        jsFalsyStr (getApiKey extra envKey) = true →
        callTool kb ekb envKey oracle name args extra = .ok (apiKeyNotConfigured, []) ∧
        apiKeyNotConfigured.isError = some true :=
  fun name hmem kb ekb envKey oracle args extra hfalsy =>
    ⟨net_tool_no_key kb ekb envKey oracle name args extra hmem hfalsy,
     error_isError _ _⟩

/-- Witness for C3 at the `get_catalogs` tool with no headers and no
environment key. -/
theorem no_credential_no_upstream_witness :
    callTool .null .null none anyOracle "get_catalogs" (.obj []) none =
      .ok (apiKeyNotConfigured, []) :=
  (no_credential_no_upstream "get_catalogs" (by decide) .null .null none anyOracle
    (.obj []) none (by decide)).1

/-- C4: every upstream response with status in [400,499] normalizes to an
error ToolResult whose structured content carries the numeric status, the
upstream-provided message verbatim when one is present (the body's `message`
field, else its `error` field), the generic "API error (status)" text when
the body provides none, and the raw upstream body as details. -/
theorem client_error_normalized :
    ∀ (status : Int) (data : Json) (label : Option String),
      400 ≤ status → status ≤ 499 →
      (ResponseFormatter.fromApiResponse ⟨status, data⟩ label).isError = some true ∧
      ResponseFormatter.fromApiResponse ⟨status, data⟩ label =
        ResponseFormatter.error (apiErrorMessage status data)
          [("status", .num status), ("details", data)] ∧
      (jsTruthy (jsGet data "message") = true →
        apiErrorMessage status data = jsGet data "message") ∧
      (jsTruthy (jsGet data "message") = false → jsTruthy (jsGet data "error") = true →
        apiErrorMessage status data = jsGet data "error") ∧
      (jsTruthy (jsGet data "message") = false → jsTruthy (jsGet data "error") = false →
        apiErrorMessage status data = .str ("API error (" ++ toString status ++ ")")) := by
  intro status data label h4 _
  refine ⟨?_, ?_, ?_, ?_, ?_⟩
  · simp only [ResponseFormatter.fromApiResponse]
    rw [if_pos h4]
    exact error_isError _ _
  · simp only [ResponseFormatter.fromApiResponse]
    rw [if_pos h4]
  · intro hm
    simp [apiErrorMessage, hm]
  · intro hm he
    simp [apiErrorMessage, hm, he]
  · intro hm he
    simp [apiErrorMessage, hm, he]

/-- Witness for C4 at a concrete 404 reply carrying an upstream message. -/
theorem client_error_normalized_witness :
    (ResponseFormatter.fromApiResponse ⟨404, .obj [("message", .str "Not found")]⟩ none).isError =
      some true ∧
    apiErrorMessage 404 (.obj [("message", .str "Not found")]) = .str "Not found" := by
  obtain ⟨h1, _, h3, _, _⟩ :=
    client_error_normalized 404 (.obj [("message", .str "Not found")]) none (by decide) (by decide)
  exact ⟨h1, (h3 (by decide)).trans rfl⟩

/-- C5 counterexample: with the success label "Render created (1 credit
used)" defined and an upstream body that itself carries a `message` field,
the normalized content is the body alone — the label is overwritten, not
added, so the claimed content shape fails at this input. -/
theorem success_label_overwritten :
    ResponseFormatter.fromApiResponse ⟨200, .obj [("message", .str "upstream note")]⟩
      (some "Render created (1 credit used)") =
      ResponseFormatter.ok (.obj [("message", .str "upstream note")]) ∧
    assocGet (objAssign [("message", .str "Render created (1 credit used)")]
      (jsSpreadFields (.obj [("message", .str "upstream note")]))) "message" =
      .str "upstream note" ∧
    Json.str "upstream note" ≠ .str "Render created (1 credit used)" := by
  refine ⟨rfl, by simp [jsSpreadFields, objAssign, setField, assocGet], by simp⟩

/-- C5 (amended): every upstream response with status in [200,299]
normalizes to a ToolResult whose `isError` flag is absent; without a success
label the content is the body verbatim; with a success label the content is
`\x7bmessage: label\x7d` overridden by the body's own fields — every field of the
body is preserved, and the label survives only when the body has no
`message` field of its own. -/
theorem success_normalized :
    ∀ (status : Int) (data : Json) (label : Option String),
      200 ≤ status → status ≤ 299 →
      (ResponseFormatter.fromApiResponse ⟨status, data⟩ label).isError = none ∧
      (label = none →
        ResponseFormatter.fromApiResponse ⟨status, data⟩ label = ResponseFormatter.ok data) ∧
      (∀ L, label = some L →
        ResponseFormatter.fromApiResponse ⟨status, data⟩ label =
          ResponseFormatter.ok (.obj (objAssign [("message", .str L)] (jsSpreadFields data))) ∧
        (((jsSpreadFields data).map Prod.fst).Nodup →
          ∀ k v, assocGet (jsSpreadFields data) k = v → v ≠ .undef →
            assocGet (objAssign [("message", .str L)] (jsSpreadFields data)) k = v) ∧
        ("message" ∉ (jsSpreadFields data).map Prod.fst →
          assocGet (objAssign [("message", .str L)] (jsSpreadFields data)) "message" = .str L)) := by
  intro status data label h2 h9
  have hlt : ¬(400 ≤ status) := by omega
  refine ⟨?_, ?_, ?_⟩
  · simp only [ResponseFormatter.fromApiResponse]
    rw [if_neg hlt]
    cases label <;> exact ok_isError _
  · intro hnone
    subst hnone
    simp only [ResponseFormatter.fromApiResponse]
    rw [if_neg hlt]
  · intro L hL
    subst hL
    refine ⟨?_, ?_, ?_⟩
    · simp only [ResponseFormatter.fromApiResponse]
      rw [if_neg hlt]
    · intro hnd k v hget hne
      exact assocGet_objAssign_nodup _ _ _ _ hnd hget hne
    · intro hmem
      rw [assocGet_objAssign_not_mem _ _ _ hmem]
      simp [assocGet]

/-- Witness for C5 (amended) at a concrete 200 reply with a label and a
message-free body. -/
theorem success_normalized_witness :
    (ResponseFormatter.fromApiResponse ⟨200, .obj [("export_path", .str "u")]⟩
      (some "Render created (1 credit used)")).isError = none ∧
    assocGet (objAssign [("message", .str "Render created (1 credit used)")]
      (jsSpreadFields (.obj [("export_path", .str "u")]))) "message" =
      .str "Render created (1 credit used)" := by
  obtain ⟨h1, _, h3⟩ :=
    success_normalized 200 (.obj [("export_path", .str "u")])
      (some "Render created (1 credit used)") (by decide) (by decide)
  obtain ⟨_, _, hm⟩ := h3 _ rfl
  exact ⟨h1, hm (by simp [jsSpreadFields])⟩

/-- C6 counterexample: with a process-wide key configured ("k0"), invoking
the unregistered tool name "does_not_exist" answers with the "Unknown tool"
error but attempts one upstream HTTP request — the fire-and-forget
telemetry POST to /mcp/track — so "zero upstream HTTP calls" fails at this
input. -/
theorem unknown_tool_tracking_call :
    callTool .null .null (some "k0") anyOracle "does_not_exist" (.obj []) none =
      .ok (ResponseFormatter.error (.str "Unknown tool: does_not_exist") [],
        [⟨"POST", "/mcp/track", [],
          some (.obj [("tool", .str "does_not_exist"), ("success", .bool false),
                      ("error", .str "Unknown tool: does_not_exist")]), "k0"⟩]) ∧
    ([⟨"POST", "/mcp/track", [],
       some (.obj [("tool", .str "does_not_exist"), ("success", .bool false),
                   ("error", .str "Unknown tool: does_not_exist")]), "k0"⟩] :
      List UpstreamCall) ≠ [] :=
  ⟨rfl, by simp⟩

/-- C6 (amended): for every tool name without a registered handler, the
router answers with an error ToolResult whose message is "Unknown tool: "
followed by the given name, and performs no upstream API operation — the
only network traffic is the fire-and-forget telemetry POST to /mcp/track,
which is skipped entirely when no API key is resolvable. -/
theorem unknown_tool_result :
    ∀ (kb ekb : Json) (envKey : Option String) (oracle : Oracle) (name : String)
      (args : Json) (extra : Extra),
      toolHandlers kb ekb envKey oracle name = none →
      callTool kb ekb envKey oracle name args extra =
        .ok (ResponseFormatter.error (.str ("Unknown tool: " ++ name)) [],
             trackToolUsage name (getApiKey extra envKey) false
               (some ("Unknown tool: " ++ name))) ∧
      (∀ c ∈ trackToolUsage name (getApiKey extra envKey) false
         (some ("Unknown tool: " ++ name)), c.path = "/mcp/track" ∧ c.method = "POST") ∧
      (jsFalsyStr (getApiKey extra envKey) = true →
        trackToolUsage name (getApiKey extra envKey) false
          (some ("Unknown tool: " ++ name)) = []) := by
  intro kb ekb envKey oracle name args extra hnone
  refine ⟨?_, trackToolUsage_mem _ _ _ _, fun hf => trackToolUsage_falsy hf _ _ _⟩
  simp [callTool, callToolWith, hnone]

/-- Witness for C6 (amended) at the name "does_not_exist" with no
credential, where even the telemetry POST is skipped. -/
theorem unknown_tool_result_witness :
    callTool .null .null none anyOracle "does_not_exist" (.obj []) none =
      .ok (ResponseFormatter.error (.str ("Unknown tool: " ++ "does_not_exist")) [],
           trackToolUsage "does_not_exist" (getApiKey none none) false
             (some ("Unknown tool: " ++ "does_not_exist"))) :=
  (unknown_tool_result .null .null none anyOracle "does_not_exist" (.obj []) none rfl).1

/-- C7 counterexample: with a process-wide key configured ("k0"), one
invocation of get_api_info through the router triggers one network call —
the telemetry POST to /mcp/track — so "each call triggers zero network
calls" fails at this input (the ToolResult itself is still the purely local
lookup). -/
theorem api_info_tracking_call :
    callTool .null .null (some "k0") anyOracle "get_api_info" (.obj []) none =
      .ok (ResponseFormatter.ok .null,
        [⟨"POST", "/mcp/track", [],
          some (.obj [("tool", .str "get_api_info"), ("success", .bool true), ("error", .null)]),
          "k0"⟩]) ∧
    ([⟨"POST", "/mcp/track", [],
       some (.obj [("tool", .str "get_api_info"), ("success", .bool true), ("error", .null)]),
       "k0"⟩] : List UpstreamCall) ≠ [] :=
  ⟨rfl, by simp⟩

/-- C7 (amended): the knowledge-base lookup tool is deterministic and
local — its output depends only on the topic argument, so repeated calls
with the same topic yield byte-identical output, and the handler itself
contacts no upstream endpoint; through the router the only network traffic
is the fire-and-forget telemetry POST (none at all when no API key is
resolvable), which never affects the returned ToolResult. -/
theorem api_info_local :
    (∀ (kb args args' : Json), jsGet args "topic" = jsGet args' "topic" →
      handleGetApiInfo kb args = handleGetApiInfo kb args') ∧
    (∀ (kb ekb : Json) (envKey : Option String) (oracle : Oracle) (args : Json) (extra : Extra),
      ∃ calls,
        callTool kb ekb envKey oracle "get_api_info" args extra =
          .ok (handleGetApiInfo kb (jsArgsOrEmpty args), calls) ∧
        (∀ c ∈ calls, c.path = "/mcp/track" ∧ c.method = "POST") ∧
        (jsFalsyStr (getApiKey extra envKey) = true → calls = [])) := by
  constructor
  · intro kb args args' h
    simp only [handleGetApiInfo, h]
  · intro kb ekb envKey oracle args extra
    refine ⟨trackToolUsage "get_api_info" (getApiKey extra envKey) true none, ?_,
      trackToolUsage_mem _ _ _ _, fun hf => trackToolUsage_falsy hf _ _ _⟩
    have hh : toolHandlers kb ekb envKey oracle "get_api_info" =
        some (fun args _ => .ok (handleGetApiInfo kb args, [])) := rfl
    rw [router_ok_branch _ kb ekb envKey oracle _ args extra _ _ hh rfl]
    simp [handleGetApiInfo_isError, errorMessageOf]

/-- Witness for C7 (amended): two argument objects sharing the topic
"billing" produce identical results. -/
theorem api_info_local_witness :
    handleGetApiInfo .null (.obj [("topic", .str "billing")]) =
      handleGetApiInfo .null (.obj [("topic", .str "billing"), ("extra_field", .num 1)]) :=
  api_info_local.1 .null _ _ rfl

/-- C8: a create_render invocation whose arguments lack `export_options`
produces an upstream request body with no `export_options` key at all, and
likewise for the other optional fields `export_label` and `text_layers`;
every request the handler attempts carries exactly this payload. -/
theorem render_optional_fields_omitted :
    ∀ args : Json,
      (jsGet args "export_options" = .undef →
        "export_options" ∉ (createRenderPayload args).map Prod.fst) ∧
      (jsGet args "export_label" = .undef →
        "export_label" ∉ (createRenderPayload args).map Prod.fst) ∧
      (jsGet args "text_layers" = .undef →
        "text_layers" ∉ (createRenderPayload args).map Prod.fst) ∧
      (∀ (envKey : Option String) (oracle : Oracle) (extra : Extra) c,
        c ∈ (handleCreateRender envKey oracle args extra).2 →
        c.body = some (.obj (createRenderPayload args))) := by
  intro args
  refine ⟨?_, ?_, ?_, ?_⟩
  · intro h
    have ht : jsTruthy (jsGet args "export_options") = false := by rw [h]; rfl
    simp only [createRenderPayload, ht]
    split_ifs <;> simp_all
  · intro h
    have ht : jsTruthy (jsGet args "export_label") = false := by rw [h]; rfl
    simp only [createRenderPayload, ht]
    split_ifs <;> simp_all
  · intro h
    have ht : jsTruthy (jsGet args "text_layers") = false := by rw [h]; rfl
    simp only [createRenderPayload, ht]
    split_ifs <;> simp_all
  · intro envKey oracle extra c hc
    simp only [handleCreateRender] at hc
    split at hc
    · simp at hc
    · have hcall := clientRun_calls _ _ _ _ c hc
      subst hcall
      rfl

/-- Witness for C8 at arguments providing only the required fields. -/
theorem render_optional_fields_omitted_witness :
    "export_options" ∉
      (createRenderPayload (.obj [("mockup_uuid", .str "m"), ("smart_objects", .arr [])])).map
        Prod.fst :=
  (render_optional_fields_omitted _).1 rfl

/-- C9 counterexample: with the header name spelled `AUTHORIZATION`,
credential resolution ignores the Bearer value entirely and answers from the
`x-api-key` header instead, so case-insensitive matching of every casing
fails at this input. -/
theorem uppercase_auth_header_ignored :
    getApiKey (some [("AUTHORIZATION", "Bearer secret"), ("x-api-key", "xkey")]) (some "envkey") =
      some "xkey" ∧ (some "xkey" : Option String) ≠ some "secret" :=
  ⟨by decide, by decide⟩

/-- C9 (amended): credential resolution recognizes exactly the header-name
spellings `authorization`/`Authorization` and `x-api-key`/`X-Api-Key` (each
resolving as claimed, with the `Bearer ` value prefix matched
case-sensitively); header maps carrying none of these four names — for
example only other casings such as `AUTHORIZATION` or `X-API-KEY` — fall
through to the process-wide fallback, and an `authorization` value that
fails the case-sensitive `Bearer ` prefix test falls through to the
x-api-key branch. -/
theorem header_name_matching :
    (∀ (hs : List (String × String)) (k : String) (envKey : Option String),
      hlookup hs "authorization" = some ("Bearer " ++ k) →
      getApiKey (some hs) envKey = some k) ∧
    (∀ (hs : List (String × String)) (k : String) (envKey : Option String),
      hlookup hs "authorization" = none →
      hlookup hs "Authorization" = some ("Bearer " ++ k) →
      getApiKey (some hs) envKey = some k) ∧
    (∀ (hs : List (String × String)) (k : String) (envKey : Option String),
      hlookup hs "authorization" = none → hlookup hs "Authorization" = none →
      hlookup hs "x-api-key" = some k → jsIsEmpty k = false →
      getApiKey (some hs) envKey = some k) ∧
    (∀ (hs : List (String × String)) (k : String) (envKey : Option String),
      hlookup hs "authorization" = none → hlookup hs "Authorization" = none →
      hlookup hs "x-api-key" = none → hlookup hs "X-Api-Key" = some k → jsIsEmpty k = false →
      getApiKey (some hs) envKey = some k) ∧
    (∀ (hs : List (String × String)) (envKey : Option String),
      hlookup hs "authorization" = none → hlookup hs "Authorization" = none →
      hlookup hs "x-api-key" = none → hlookup hs "X-Api-Key" = none →
      getApiKey (some hs) envKey = envKey) ∧
    (∀ (hs : List (String × String)) (v : String) (envKey : Option String),
      hlookup hs "authorization" = some v →
      jsIsEmpty v = false → jsStartsWith v "Bearer " = false →
      getApiKey (some hs) envKey = xApiKeyFallback hs envKey) := by
  refine ⟨?_, ?_, ?_, ?_, ?_, ?_⟩
  · intro hs k envKey h1
    have hstr : strOr (hlookup hs "authorization") (hlookup hs "Authorization") =
        some ("Bearer " ++ k) := by
      simp [strOr, h1, jsFalsyStr, bearer_append_isEmpty]
    simp [getApiKey, hstr, bearer_append_isEmpty, bearer_append_startsWith, bearer_append_drop]
  · intro hs k envKey h1 h2
    have hstr : strOr (hlookup hs "authorization") (hlookup hs "Authorization") =
        some ("Bearer " ++ k) := by
      simp [strOr, h1, jsFalsyStr, h2]
    simp [getApiKey, hstr, bearer_append_isEmpty, bearer_append_startsWith, bearer_append_drop]
  · intro hs k envKey h1 h2 hx hk
    simp [getApiKey, xApiKeyFallback, strOr, jsFalsyStr, h1, h2, hx, hk]
  · intro hs k envKey h1 h2 hx hX hk
    simp [getApiKey, xApiKeyFallback, strOr, jsFalsyStr, h1, h2, hx, hX, hk]
  · intro hs envKey h1 h2 hx hX
    simp [getApiKey, xApiKeyFallback, strOr, jsFalsyStr, h1, h2, hx, hX]
  · intro hs v envKey h1 hne hpre
    have hstr : strOr (hlookup hs "authorization") (hlookup hs "Authorization") = some v := by
      simp [strOr, h1, jsFalsyStr, hne]
    simp [getApiKey, hstr, hne, hpre]

/-- Witness for C9 (amended): the `X-Api-Key` spelling is recognized. -/
theorem header_name_matching_witness :
    getApiKey (some [("X-Api-Key", "capkey")]) (some "env") = some "capkey" :=
  header_name_matching.2.2.2.1 _ "capkey" _ (by decide) (by decide) (by decide) (by decide)
    (by decide)

/-- C10: an Authorization header whose value is exactly "Bearer " resolves
to the empty-string credential — ignoring any `x-api-key` header and any
configured fallback — and the invocation of any network-calling tool then
answers with the "API key not configured" error and attempts no upstream
request, the empty key being treated as absent. -/
theorem bearer_empty_token :
    ∀ (hs : List (String × String)) (envKey : Option String) (kb ekb : Json)
      (oracle : Oracle) (name : String) (args : Json),
      (hlookup hs "authorization" = some "Bearer " ∨
        (jsFalsyStr (hlookup hs "authorization") = true ∧
          hlookup hs "Authorization" = some "Bearer ")) →
      getApiKey (some hs) envKey = some "" ∧
      (name ∈ netToolNames →
        callTool kb ekb envKey oracle name args (some hs) = .ok (apiKeyNotConfigured, [])) := by
  intro hs envKey kb ekb oracle name args h
  have hkey : getApiKey (some hs) envKey = some "" := by
    have hstr : strOr (hlookup hs "authorization") (hlookup hs "Authorization") =
        some "Bearer " := by
      rcases h with h1 | ⟨hf, h2⟩
      · simp [strOr, h1, show jsFalsyStr (some "Bearer ") = false from by decide]
      · simp [strOr, hf, h2]
    simp [getApiKey, hstr, show jsIsEmpty "Bearer " = false from by decide,
      show jsStartsWith "Bearer " "Bearer " = true from by decide,
      show jsDrop "Bearer " 7 = "" from by decide]
  refine ⟨hkey, fun hmem => net_tool_no_key kb ekb envKey oracle name args (some hs) hmem ?_⟩
  rw [hkey]
  decide

/-- Witness for C10 at a header map that also carries a usable `x-api-key`
and a configured fallback, neither of which is consulted. -/
theorem bearer_empty_token_witness :
    getApiKey (some [("authorization", "Bearer "), ("x-api-key", "real")]) (some "env") =
      some "" ∧
    callTool .null .null (some "env") anyOracle "get_catalogs" (.obj [])
      (some [("authorization", "Bearer "), ("x-api-key", "real")]) =
      .ok (apiKeyNotConfigured, []) := by
  obtain ⟨h1, h2⟩ := bearer_empty_token [("authorization", "Bearer "), ("x-api-key", "real")]
    (some "env") .null .null anyOracle "get_catalogs" (.obj []) (Or.inl (by decide))
  exact ⟨h1, h2 (by decide)⟩
